import Mathlib

/-!
Shallow embedding of the `quiz_app` Django application
(`quiz_app/models.py`, `quiz_app/views.py`, `quiz_app/urls.py`).

Modelling conventions:
* The relational store is an explicit `Store` record of lists of rows;
  handlers take the store and return a response together with the new store.
* `request.POST` is an association list of string pairs; `QueryDict.get`
  is first-match lookup (`postGet`); each claim that needs the real form
  shape supplies distinct keys, as a browser form submission does.
* Fallible Django operations are `Except String`; an `.error` value models
  an uncaught Python exception propagating out of the view
  (`MultiValueDictKeyError`, `ValueError`, `IntegrityError`).
* Python float division in `quiz_results` is modelled by exact rational
  division (`ℚ`); the spec's formulas are stated over the same rationals.
-/

namespace Quiz

/-- `models.py` `Question`: identity, text. The `created_at` timestamp is
never read by any handler and is omitted. -/
structure Question where
  id : Nat
  text : String
  deriving DecidableEq, Repr

/-- `models.py` `Answer`: identity, owning question, text, correctness flag.
`created_at` is never read and is omitted. -/
structure Answer where
  id : Nat
  questionId : Nat
  text : String
  correct : Bool
  deriving DecidableEq, Repr

/-- `models.py` `UserAnswer`: user, question, selected answer, integer score.
The `selected_answer` foreign key is declared without `null=True`, so the
column is NOT NULL: a stored row always references an answer id. -/
structure UserAnswer where
  userId : Nat
  questionId : Nat
  selectedAnswerId : Nat
  score : Int
  deriving DecidableEq, Repr

/-- The externally owned `django.contrib.auth.models.User` row, with the
fields the views read (`username`, `email`, `password`). -/
structure UserRec where
  username : String
  email : String
  password : String
  deriving DecidableEq, Repr

/-- The persistence store: the three app tables. -/
structure Store where
  questions : List Question
  answers : List Answer
  userAnswers : List UserAnswer
  deriving DecidableEq, Repr

/-- `request.POST.get(key)`: first-match lookup in the submitted form data. -/
def postGet (post : List (String × String)) (key : String) : Option String :=
  (post.find? (fun kv => kv.1 == key)).map (fun kv => kv.2)

/-- Digit-string accumulator for `parseNat?`. -/
def parseNatDigits : List Char → Nat → Option Nat
  | [], acc => some acc
  | c :: cs, acc =>
    let d := c.toNat
    if 48 ≤ d ∧ d ≤ 57 then parseNatDigits cs (acc * 10 + (d - 48)) else none

/-- Python's `int(...)` coercion applied by the ORM to a string filter value
on an integer column: a non-empty all-digit string parses to the number,
anything else raises `ValueError` (modelled as `none`). -/
def parseNat? (s : String) : Option Nat :=
  match s.data with
  | [] => none
  | cs => parseNatDigits cs 0

/-- List-level prefix test backing `strStartsWith`. -/
def isPrefixList : List Char → List Char → Bool
  | [], _ => true
  | _ :: _, [] => false
  | a :: as, b :: bs => a == b && isPrefixList as bs

/-- Python's `key.startswith(p)`. -/
def strStartsWith (s p : String) : Bool :=
  isPrefixList p.data s.data

/-- Python's `key.split("_")`, over the character list: always returns at
least one (possibly empty) component. -/
def splitUnderscore : List Char → List (List Char)
  | [] => [[]]
  | c :: cs =>
    let rest := splitUnderscore cs
    if c == '_' then [] :: rest
    else
      match rest with
      | [] => [[c]]
      | r :: rs => (c :: r) :: rs

/-- `UserAnswer.calculate_score` (`models.py`): sets `score` to 1 if the
selected answer's `correct` flag is true, else 0, and saves. `a` is the
in-memory `selected_answer` instance assigned at creation time (Django
returns the cached assigned object when the view reads it back). -/
def UserAnswer.calculate_score (ua : UserAnswer) (a : Answer) : UserAnswer :=
  { ua with score := if a.correct then 1 else 0 }

/-- The form key `question_<id>` used by the quiz page for question `q`. -/
def qkey (q : Question) : String :=
  "question_" ++ toString q.id

/-- One iteration of the POST loop in `load_questions`, per question:
`selected_answer_id = request.POST.get(f'question_{question.id}')`, the
empty string is falsy and skips; otherwise `Answer.objects.filter(id=...)`
coerces the string to an integer (a non-numeric string raises `ValueError`)
and `.first()` resolves the row; `UserAnswer.objects.create` with a `None`
`selected_answer` violates the NOT NULL foreign-key column and raises
`IntegrityError`. The combined resolution outcome, as an option. -/
def selectedAnswer (answers : List Answer) (post : List (String × String))
    (q : Question) : Option Answer :=
  match postGet post (qkey q) with
  | none => none
  | some v =>
    if v = "" then none
    else
      match parseNat? v with
      | none => none
      | some n => answers.find? (fun a => a.id == n)

/-- Whether the POST carries a truthy (non-empty) value for question `q`
(`if selected_answer_id:` in `load_questions`). -/
def answered (post : List (String × String)) (q : Question) : Bool :=
  ((postGet post (qkey q)).getD "") ≠ ""

/-- The POST branch of `load_questions`: iterate the full question list,
skip questions with no truthy submitted value, resolve the submitted
answer id, create the `UserAnswer` row, score it, and accumulate the
total. Errors model the uncaught Python exceptions of the source:
`ValueError` from the integer coercion in `filter(id=...)`, and
`IntegrityError` from saving a `None` `selected_answer` into the
NOT NULL column declared in `models.py`. -/
def submitLoop (answers : List Answer) (uid : Nat)
    (post : List (String × String)) :
    List Question → Int → List UserAnswer →
      Except String (Int × List UserAnswer)
  | [], total, recs => .ok (total, recs)
  | q :: qs, total, recs =>
    match postGet post (qkey q) with
    | none => submitLoop answers uid post qs total recs
    | some v =>
      if v = "" then submitLoop answers uid post qs total recs
      else
        match parseNat? v with
        | none => .error "ValueError: invalid literal for int"
        | some n =>
          match answers.find? (fun a => a.id == n) with
          | none =>
            .error "IntegrityError: NOT NULL constraint failed: quiz_app_useranswer.selected_answer_id"
          | some a =>
            let ua := UserAnswer.calculate_score
              { userId := uid, questionId := q.id,
                selectedAnswerId := a.id, score := 0 } a
            submitLoop answers uid post qs (total + ua.score) (recs ++ [ua])

/-- Responses of the `load_questions` view. -/
inductive QuizResponse where
  | redirect (target : String)
  | redirectResults (score : Int)
  | render (template : String) (questions : List Question)
  deriving DecidableEq, Repr

/-- `views.py` `load_questions`: redirect unauthenticated callers to
`index`; on POST run the scoring loop over every question and redirect to
`quiz_results` with the total; on GET render the quiz page with the
question list. -/
def load_questions (authenticated : Bool) (uid : Nat) (isPost : Bool)
    (post : List (String × String)) (s : Store) :
    Except String (QuizResponse × Store) :=
  if !authenticated then .ok (.redirect "index", s)
  else if isPost then
    match submitLoop s.answers uid post s.questions 0 [] with
    | .error e => .error e
    | .ok (total, recs) =>
      .ok (.redirectResults total,
           { s with userAnswers := s.userAnswers ++ recs })
  else .ok (.render "quiz_page.html" s.questions, s)

/-- Responses of the login (`index`) and `register` views: a rendered page
with an optional inline error, or a redirect. -/
inductive AuthResponse where
  | render (template : String) (error : Option String)
  | redirect (target : String)
  deriving DecidableEq, Repr

/-- `django.contrib.auth.authenticate`: the external identity collaborator,
matching a stored user by username and password. -/
def authenticate (users : List UserRec) (username password : String) :
    Option UserRec :=
  users.find? (fun u => u.username == username && u.password == password)

/-- `views.py` `index` (login): on POST read `request.POST['username']` and
`request.POST['password']` (a missing key raises
`MultiValueDictKeyError`), authenticate, and either log in and redirect or
re-render with an inline error; on GET render the login page. Returns the
response and the session (the logged-in username, if any). -/
def index (isPost : Bool) (post : List (String × String))
    (users : List UserRec) (session : Option String) :
    Except String (AuthResponse × Option String) :=
  if isPost then
    match postGet post "username" with
    | none => .error "MultiValueDictKeyError"
    | some username =>
      match postGet post "password" with
      | none => .error "MultiValueDictKeyError"
      | some password =>
        match authenticate users username password with
        | some _ => .ok (.redirect "index", some username)
        | none =>
          .ok (.render "index.html" (some "Invalid username or password"),
               session)
  else .ok (.render "index.html" none, session)

/-- `views.py` `register`: on POST read `username`, `email`, `password`
from the form (a missing key raises `MultiValueDictKeyError`); reject with
an inline message when the username or the email already exists; otherwise
create the user, log in, and redirect to root. Returns the response, the
user table, and the session. -/
def register (isPost : Bool) (post : List (String × String))
    (users : List UserRec) (session : Option String) :
    Except String (AuthResponse × List UserRec × Option String) :=
  if isPost then
    match postGet post "username" with
    | none => .error "MultiValueDictKeyError"
    | some username =>
      match postGet post "email" with
      | none => .error "MultiValueDictKeyError"
      | some email =>
        match postGet post "password" with
        | none => .error "MultiValueDictKeyError"
        | some password =>
          if users.any (fun u => u.username == username) then
            .ok (.render "register.html" (some "Username already exists"),
                 users, session)
          else if users.any (fun u => u.email == email) then
            .ok (.render "register.html" (some "Email already exists"),
                 users, session)
          else
            .ok (.redirect "/",
                 users ++ [{ username := username, email := email,
                             password := password }],
                 some username)
  else .ok (.render "register.html" none, users, session)

/-- `views.py` `quiz_results`: fetch the question count and compute
`(score / total_questions) * 100` when the count is positive, else 0.
Python float division is modelled as exact rational division. -/
def quiz_results (s : Store) (score : Nat) : ℚ :=
  let totalQuestions := s.questions.length
  if totalQuestions > 0 then
    ((score : ℚ) / (totalQuestions : ℚ)) * 100
  else 0

/-- The question form passed to the `add_question.html` template: either
the unbound `QuestionForm()` or the bound `QuestionForm(request.POST)`. -/
inductive FormState where
  | empty
  | bound (data : List (String × String))
  deriving DecidableEq, Repr

/-- Responses of the `add_question` view. -/
inductive AddQuestionResponse where
  | redirect (target : String)
  | render (template : String) (form : FormState)
  deriving DecidableEq, Repr

/-- `key.split("_")[-1]`: the last `_`-separated component of a form key. -/
def lastComponent (key : String) : String :=
  String.mk ((splitUnderscore key.data).getLastD [])

/-- `request.POST.get(f'is_correct_{idx}', False) == 'on'`: the parallel
correctness field counts as true only when present with the literal value
`"on"` (the missing-key default `False` never equals `'on'`). -/
def isCorrectFor (post : List (String × String)) (idx : String) : Bool :=
  match postGet post ("is_correct_" ++ idx) with
  | none => false
  | some v => v == "on"

/-- The answer-creation scan of `add_question`: every submitted field whose
name starts with `answer_text_` yields one answer, pairing its value with
the correctness derived from the parallel `is_correct_<index>` field. -/
def answerFields (post : List (String × String)) : List (String × Bool) :=
  post.filterMap (fun kv =>
    if strStartsWith kv.1 "answer_text_" then
      some (kv.2, isCorrectFor post (lastComponent kv.1))
    else none)

/-- Fresh primary key for a new question row (database autoincrement). -/
def freshQuestionId (s : Store) : Nat :=
  (s.questions.map (fun q => q.id)).foldr max 0 + 1

/-- Fresh primary key base for new answer rows (database autoincrement). -/
def freshAnswerId (s : Store) : Nat :=
  (s.answers.map (fun a => a.id)).foldr max 0 + 1

/-- `Answer.objects.create` for each scanned field, with sequential fresh
ids, attached to the saved question `qid`. -/
def mkAnswers (qid : Nat) : Nat → List (String × Bool) → List Answer
  | _, [] => []
  | base, (t, c) :: rest =>
    { id := base, questionId := qid, text := t, correct := c } ::
      mkAnswers qid (base + 1) rest

/-- Modelled from the spec: `forms.py` (`QuestionForm`) is not under
`src/`; §4.3 says the handler "validates and saves the Question via a
bound form object". The saved question's text is the submitted `text`
field; validity itself is abstract, so the handlers below take the form's
validation outcome as a function parameter `formIsValid`. -/
def questionFromForm (post : List (String × String)) (qid : Nat) : Question :=
  { id := qid, text := (postGet post "text").getD "" }

/-- `views.py` `add_question`: redirect unauthenticated callers to `index`;
on POST bind `QuestionForm(request.POST)`; when valid, save the question,
create one answer per `answer_text_*` field, and redirect back to
`add_question`; when invalid, fall through and render the page with the
bound form; on GET render the page with the unbound form. -/
def add_question (formIsValid : List (String × String) → Bool)
    (authenticated : Bool) (isPost : Bool)
    (post : List (String × String)) (s : Store) :
    AddQuestionResponse × Store :=
  if !authenticated then (.redirect "index", s)
  else if isPost then
    if formIsValid post then
      let qid := freshQuestionId s
      let q := questionFromForm post qid
      let newAnswers := mkAnswers qid (freshAnswerId s) (answerFields post)
      (.redirect "add_question",
       { s with questions := s.questions ++ [q],
                answers := s.answers ++ newAnswers })
    else (.render "add_question.html" (.bound post), s)
  else (.render "add_question.html" .empty, s)

/-- The `UserAnswer` row the POST loop creates and scores for question `q`
when the submitted id resolved to answer `a`. -/
def mkRecord (uid : Nat) (q : Question) (a : Answer) : UserAnswer :=
  UserAnswer.calculate_score
    { userId := uid, questionId := q.id, selectedAnswerId := a.id,
      score := 0 } a

/-- The rows a fully-resolving submission creates, one per question with a
truthy resolved selection, in question order. -/
def quizRecords (answers : List Answer) (post : List (String × String))
    (uid : Nat) (qs : List Question) : List UserAnswer :=
  qs.filterMap (fun q => (selectedAnswer answers post q).map (mkRecord uid q))

/-- The number of selected answers whose `correct` flag is true — the
claim's `c`, counted over the resolved selections only. -/
def quizScore (answers : List Answer) (post : List (String × String))
    (qs : List Question) : Int :=
  (((qs.filterMap (selectedAnswer answers post)).filter
      (fun a => a.correct)).length : Int)

/-! ## Theorems -/

/-- A resolved selection is a stored answer row. -/
theorem selectedAnswer_mem {answers : List Answer}
    {post : List (String × String)} {q : Question} {a : Answer}
    (h : selectedAnswer answers post q = some a) : a ∈ answers := by
  unfold selectedAnswer at h
  cases hp : postGet post (qkey q) with
  | none => simp [hp] at h
  | some v =>
    simp only [hp] at h
    by_cases hv : v = ""
    · simp [hv] at h
    · simp only [if_neg hv] at h
      cases hn : parseNat? v with
      | none => simp [hn] at h
      | some n =>
        simp only [hn] at h
        exact List.mem_of_find?_eq_some h

/-- The POST loop of `load_questions`, when every truthy selection
resolves, succeeds and returns the accumulated total plus the count of
correct resolved selections, appending exactly the scored rows. -/
theorem submitLoop_resolved (answers : List Answer) (uid : Nat)
    (post : List (String × String)) (qs : List Question)
    (h : ∀ q ∈ qs, answered post q = true →
      (selectedAnswer answers post q).isSome = true) :
    ∀ total recs, submitLoop answers uid post qs total recs =
      .ok (total + quizScore answers post qs,
           recs ++ quizRecords answers post uid qs) := by
  induction qs with
  | nil => intro total recs; simp [submitLoop, quizScore, quizRecords]
  | cons q qs ih =>
    intro total recs
    have hq := h q (List.mem_cons_self q qs)
    have hrest := fun q' hm => h q' (List.mem_cons_of_mem q hm)
    cases hp : postGet post (qkey q) with
    | none =>
      have hsel : selectedAnswer answers post q = none := by
        simp [selectedAnswer, hp]
      simp [submitLoop, hp, ih hrest, quizScore, quizRecords, hsel]
    | some v =>
      by_cases hv : v = ""
      · subst hv
        have hsel : selectedAnswer answers post q = none := by
          simp [selectedAnswer, hp]
        simp [submitLoop, hp, ih hrest, quizScore, quizRecords, hsel]
      · have hans : answered post q = true := by
          simp [answered, hp, hv]
        have hsome := hq hans
        cases hn : parseNat? v with
        | none =>
          have : (selectedAnswer answers post q).isSome = false := by
            simp [selectedAnswer, hp, hv, hn]
          rw [this] at hsome; exact absurd hsome (by simp)
        | some n =>
          cases hf : answers.find? (fun a => a.id == n) with
          | none =>
            have : (selectedAnswer answers post q).isSome = false := by
              simp [selectedAnswer, hp, hv, hn, hf]
            rw [this] at hsome; exact absurd hsome (by simp)
          | some a =>
            have hsel : selectedAnswer answers post q = some a := by
              simp [selectedAnswer, hp, hv, hn, hf]
            have step : submitLoop answers uid post (q :: qs) total recs =
                submitLoop answers uid post qs
                  (total + (mkRecord uid q a).score)
                  (recs ++ [mkRecord uid q a]) := by
              simp [submitLoop, hp, hv, hn, hf, mkRecord]
            rw [step, ih hrest]
            have hscore : quizScore answers post (q :: qs) =
                (mkRecord uid q a).score + quizScore answers post qs := by
              simp only [quizScore, List.filterMap_cons, hsel]
              cases hc : a.correct <;>
                simp [mkRecord, UserAnswer.calculate_score, hc,
                  List.filter_cons] <;>
                omega
            have hrecs : quizRecords answers post uid (q :: qs) =
                mkRecord uid q a :: quizRecords answers post uid qs := by
              simp [quizRecords, List.filterMap_cons, hsel]
            rw [hscore, hrecs]
            simp only [Except.ok.injEq, Prod.mk.injEq]
            exact ⟨by omega, by simp⟩

/-- C1: an authenticated quiz submission whose truthy selections all
resolve succeeds: the redirect carries a total equal to the number of
selected answers whose correctness flag is true (`quizScore`), so the
unanswered questions contribute nothing, and every created `UserAnswer`
row references a stored answer and has score 1 when that answer's
correctness flag is true and 0 otherwise. -/
theorem quiz_submission_scores_correct_count (s : Store) (uid : Nat)
    (post : List (String × String))
    (hres : ∀ q ∈ s.questions, answered post q = true →
      (selectedAnswer s.answers post q).isSome = true) :
    load_questions true uid true post s =
      .ok (.redirectResults (quizScore s.answers post s.questions),
           { s with userAnswers := s.userAnswers ++
               quizRecords s.answers post uid s.questions }) ∧
    (∀ r ∈ quizRecords s.answers post uid s.questions,
      ∃ a ∈ s.answers, r.selectedAnswerId = a.id ∧
        r.score = (if a.correct then (1 : Int) else 0)) := by
  constructor
  · simp [load_questions,
      submitLoop_resolved s.answers uid post s.questions hres 0 []]
  · intro r hr
    simp only [quizRecords, List.mem_filterMap] at hr
    obtain ⟨q, hq, hmap⟩ := hr
    cases hsel : selectedAnswer s.answers post q with
    | none => rw [hsel] at hmap; simp at hmap
    | some a =>
      rw [hsel] at hmap
      simp only [Option.map_some'] at hmap
      obtain rfl := Option.some.inj hmap
      refine ⟨a, selectedAnswer_mem hsel, rfl, ?_⟩
      simp [mkRecord, UserAnswer.calculate_score]

/-- Witness for C1: three stored questions, a submission answering two of
them (one incorrect, one correct); the request succeeds with total 1 and
creates the two scored rows, the third question contributing nothing. -/
theorem quiz_submission_scores_correct_count_witness :
    (∀ q ∈ ([⟨1, "q1"⟩, ⟨2, "q2"⟩, ⟨3, "q3"⟩] : List Question),
      answered [("question_1", "2"), ("question_2", "3")] q = true →
      (selectedAnswer
        [⟨1, 1, "t", true⟩, ⟨2, 1, "f", false⟩, ⟨3, 2, "t", true⟩]
        [("question_1", "2"), ("question_2", "3")] q).isSome = true) ∧
    load_questions true 7 true [("question_1", "2"), ("question_2", "3")]
      { questions := [⟨1, "q1"⟩, ⟨2, "q2"⟩, ⟨3, "q3"⟩],
        answers := [⟨1, 1, "t", true⟩, ⟨2, 1, "f", false⟩,
                    ⟨3, 2, "t", true⟩],
        userAnswers := [] } =
      .ok (.redirectResults 1,
           { questions := [⟨1, "q1"⟩, ⟨2, "q2"⟩, ⟨3, "q3"⟩],
             answers := [⟨1, 1, "t", true⟩, ⟨2, 1, "f", false⟩,
                         ⟨3, 2, "t", true⟩],
             userAnswers := [⟨7, 1, 2, 0⟩, ⟨7, 2, 3, 1⟩] }) := by
  refine ⟨by decide, ?_⟩
  exact (quiz_submission_scores_correct_count _ 7 _ (by decide)).1

/-- C6: `calculate_score` is idempotent on the derived score field: for a
fixed selected answer, scoring an already-scored submission yields exactly
the record the first call produced (in particular the same score value). -/
theorem calculate_score_idempotent (ua : UserAnswer) (a : Answer) :
    UserAnswer.calculate_score (UserAnswer.calculate_score ua a) a =
      UserAnswer.calculate_score ua a := by
  cases a with
  | mk id qid text correct => cases correct <;> rfl

/-- C3: the results presenter computes `100 * score / totalQuestions` when
the stored question count is positive and 0 when it is zero; in particular
a score of 0 over 0 questions yields 0 (no division by zero) and a score
of 2 over 4 questions yields 50. -/
theorem quiz_results_percentage (s : Store) (score : Nat) :
    quiz_results s score =
      (if 0 < s.questions.length then
        (100 * (score : ℚ)) / (s.questions.length : ℚ) else 0) ∧
    quiz_results { questions := [], answers := [], userAnswers := [] } 0 = 0 ∧
    quiz_results
      { questions := [⟨1, "a"⟩, ⟨2, "b"⟩, ⟨3, "c"⟩, ⟨4, "d"⟩],
        answers := [], userAnswers := [] } 2 = 50 := by
  refine ⟨?_, by norm_num [quiz_results], by norm_num [quiz_results]⟩
  by_cases h : 0 < s.questions.length
  · simp only [quiz_results, h, if_true, gt_iff_lt, if_pos]
    ring
  · simp [quiz_results, h]

/-- C7: an unauthenticated request to the quiz page (`load_questions`) or
the authoring page (`add_question`), GET or POST alike, yields a redirect
to the `index` route and leaves the store untouched: no question, answer,
or user-answer row is created or modified. -/
theorem unauthenticated_redirects (uid : Nat) (isPost : Bool)
    (post : List (String × String)) (s : Store)
    (formIsValid : List (String × String) → Bool) :
    load_questions false uid isPost post s = .ok (.redirect "index", s) ∧
    add_question formIsValid false isPost post s = (.redirect "index", s) :=
  ⟨rfl, rfl⟩

/-- C9: a question whose submitted `question_<id>` value is the empty
string is treated exactly like an unanswered question: the scoring loop
produces the same total and the same created rows as if the question were
absent from the set, so no `UserAnswer` row is created for it and it
contributes 0 to the total. -/
theorem empty_selection_skipped (answers : List Answer) (uid : Nat)
    (post : List (String × String)) (q : Question)
    (qs1 qs2 : List Question) (total : Int) (recs : List UserAnswer)
    (h : postGet post (qkey q) = some "") :
    submitLoop answers uid post (qs1 ++ q :: qs2) total recs =
      submitLoop answers uid post (qs1 ++ qs2) total recs := by
  induction qs1 generalizing total recs with
  | nil => simp [submitLoop, h]
  | cons q0 qs1 ih =>
    simp only [List.cons_append]
    cases hp : postGet post (qkey q0) with
    | none => simp [submitLoop, hp, ih]
    | some v =>
      by_cases hv : v = ""
      · subst hv
        simp [submitLoop, hp, ih]
      · cases hn : parseNat? v with
        | none => simp [submitLoop, hp, hv, hn]
        | some n =>
          cases hf : answers.find? (fun a => a.id == n) with
          | none => simp [submitLoop, hp, hv, hn, hf]
          | some a => simp [submitLoop, hp, hv, hn, hf, ih]

/-- Witness for C9: a one-question set whose only submitted value is the
empty string behaves like the empty question set. -/
theorem empty_selection_skipped_witness :
    submitLoop [] 7 [("question_1", "")] [⟨1, "q"⟩] 0 [] =
      submitLoop [] 7 [("question_1", "")] [] 0 [] :=
  empty_selection_skipped [] 7 [("question_1", "")] ⟨1, "q"⟩ [] [] 0 [] rfl

/-- C2 counterexample: a submission whose selected-answer id `5` resolves
to no stored answer does not complete normally — creating the `UserAnswer`
row with a `None` `selected_answer` violates the NOT NULL foreign-key
column of `models.py`, so the request raises instead of redirecting. -/
theorem unresolved_answer_raises_counterexample :
    load_questions true 7 true [("question_1", "5")]
      { questions := [⟨1, "q"⟩], answers := [], userAnswers := [] } =
      .error
        "IntegrityError: NOT NULL constraint failed: quiz_app_useranswer.selected_answer_id" :=
  rfl

/-- C2 amended: when some question's submitted value is truthy but does not
resolve to a stored answer (a non-integer literal or an unknown id), the
whole submission fails with an uncaught exception — `ValueError` from the
integer coercion or `IntegrityError` from saving the null reference — so
the request does not complete normally. -/
theorem unresolved_answer_raises (s : Store) (uid : Nat)
    (post : List (String × String))
    (hbad : ∃ q ∈ s.questions, answered post q = true ∧
      selectedAnswer s.answers post q = none) :
    ∃ e, load_questions true uid true post s = .error e := by
  obtain ⟨q, hq, hans, hsel⟩ := hbad
  suffices h : ∀ qs total recs, q ∈ qs →
      ∃ e, submitLoop s.answers uid post qs total recs = .error e by
    obtain ⟨e, he⟩ := h s.questions 0 [] hq
    exact ⟨e, by simp [load_questions, he]⟩
  intro qs
  induction qs with
  | nil => intro total recs hm; exact absurd hm (by simp)
  | cons q0 qs ih =>
    intro total recs hm
    by_cases hq0 : q = q0
    · subst hq0
      cases hp : postGet post (qkey q) with
      | none => simp [answered, hp] at hans
      | some v =>
        by_cases hv : v = ""
        · subst hv; simp [answered, hp] at hans
        · cases hn : parseNat? v with
          | none =>
            exact ⟨"ValueError: invalid literal for int",
              by simp [submitLoop, hp, hv, hn]⟩
          | some n =>
            cases hf : s.answers.find? (fun a => a.id == n) with
            | none =>
              exact ⟨"IntegrityError: NOT NULL constraint failed: quiz_app_useranswer.selected_answer_id",
                by simp [submitLoop, hp, hv, hn, hf]⟩
            | some a =>
              exact absurd hsel (by simp [selectedAnswer, hp, hv, hn, hf])
    · have hm' : q ∈ qs := by
        cases hm with
        | head => exact absurd rfl hq0
        | tail _ h => exact h
      cases hp : postGet post (qkey q0) with
      | none =>
        obtain ⟨e, he⟩ := ih total recs hm'
        exact ⟨e, by simp [submitLoop, hp, he]⟩
      | some v =>
        by_cases hv : v = ""
        · subst hv
          obtain ⟨e, he⟩ := ih total recs hm'
          exact ⟨e, by simp [submitLoop, hp, he]⟩
        · cases hn : parseNat? v with
          | none =>
            exact ⟨"ValueError: invalid literal for int",
              by simp [submitLoop, hp, hv, hn]⟩
          | some n =>
            cases hf : s.answers.find? (fun a => a.id == n) with
            | none =>
              exact ⟨"IntegrityError: NOT NULL constraint failed: quiz_app_useranswer.selected_answer_id",
                by simp [submitLoop, hp, hv, hn, hf]⟩
            | some a =>
              obtain ⟨e, he⟩ := ih (total +
                (mkRecord uid q0 a).score) (recs ++ [mkRecord uid q0 a]) hm'
              refine ⟨e, ?_⟩
              simp only [submitLoop, hp, hv, hn, hf, if_neg hv]
              exact he

/-- Witness for the amended C2: a concrete store and submission with an
unknown id `9` makes the request raise. -/
theorem unresolved_answer_raises_witness :
    ∃ e, load_questions true 3 true [("question_1", "9")]
      { questions := [⟨1, "q"⟩], answers := [⟨1, 1, "t", true⟩],
        userAnswers := [] } = .error e :=
  unresolved_answer_raises _ 3 _ ⟨⟨1, "q"⟩, by decide, by decide, by decide⟩

/-- C5: registration rejects an existing username and an existing email
independently, each with its own inline message (`Username already exists`
/ `Email already exists`), and in both rejection cases the user table and
the session are left unchanged. -/
theorem register_rejects_duplicates (post : List (String × String))
    (users : List UserRec) (session : Option String)
    (username email password : String)
    (hu : postGet post "username" = some username)
    (he : postGet post "email" = some email)
    (hp : postGet post "password" = some password) :
    (users.any (fun u => u.username == username) = true →
      register true post users session =
        .ok (.render "register.html" (some "Username already exists"),
             users, session)) ∧
    (users.any (fun u => u.username == username) = false →
     users.any (fun u => u.email == email) = true →
      register true post users session =
        .ok (.render "register.html" (some "Email already exists"),
             users, session)) := by
  constructor
  · intro h1
    simp [register, hu, he, hp, h1]
  · intro h1 h2
    simp [register, hu, he, hp, h1, h2]

/-- Witness for C5: a duplicate username and, separately, a duplicate
email are both rejected against a concrete one-user table, which is left
unchanged. -/
theorem register_rejects_duplicates_witness :
    register true
      [("username", "alice"), ("email", "b@x"), ("password", "pw")]
      [{ username := "alice", email := "a@x", password := "pw" }] none =
      .ok (.render "register.html" (some "Username already exists"),
           [{ username := "alice", email := "a@x", password := "pw" }],
           none) ∧
    register true
      [("username", "bob"), ("email", "a@x"), ("password", "pw")]
      [{ username := "alice", email := "a@x", password := "pw" }] none =
      .ok (.render "register.html" (some "Email already exists"),
           [{ username := "alice", email := "a@x", password := "pw" }],
           none) :=
  ⟨(register_rejects_duplicates
      [("username", "alice"), ("email", "b@x"), ("password", "pw")]
      [{ username := "alice", email := "a@x", password := "pw" }] none
      "alice" "b@x" "pw" rfl rfl rfl).1 rfl,
   (register_rejects_duplicates
      [("username", "bob"), ("email", "a@x"), ("password", "pw")]
      [{ username := "alice", email := "a@x", password := "pw" }] none
      "bob" "a@x" "pw" rfl rfl rfl).2 rfl rfl⟩

/-- C10: a login POST missing the `username` or `password` field, and a
registration POST missing the `username`, `email`, or `password` field,
fail with an uncaught exception (`MultiValueDictKeyError`) instead of
rendering a page or redirecting. -/
theorem missing_fields_raise (post : List (String × String))
    (users : List UserRec) (session : Option String) :
    ((postGet post "username" = none ∨ postGet post "password" = none) →
      index true post users session = .error "MultiValueDictKeyError") ∧
    ((postGet post "username" = none ∨ postGet post "email" = none ∨
      postGet post "password" = none) →
      register true post users session =
        .error "MultiValueDictKeyError") := by
  constructor
  · rintro (h | h)
    · simp [index, h]
    · cases hu : postGet post "username" with
      | none => simp [index, hu]
      | some username => simp [index, hu, h]
  · rintro (h | h | h)
    · simp [register, h]
    · cases hu : postGet post "username" with
      | none => simp [register, hu]
      | some username => simp [register, hu, h]
    · cases hu : postGet post "username" with
      | none => simp [register, hu]
      | some username =>
        cases he : postGet post "email" with
        | none => simp [register, hu, he]
        | some email => simp [register, hu, he, h]

/-- Witness for C10: the empty POST body makes both the login view and the
registration view raise. -/
theorem missing_fields_raise_witness :
    index true [] [] none = .error "MultiValueDictKeyError" ∧
    register true [] [] none = .error "MultiValueDictKeyError" :=
  ⟨(missing_fields_raise [] [] none).1 (Or.inl rfl),
   (missing_fields_raise [] [] none).2 (Or.inl rfl)⟩

/-- `mkAnswers` creates one row per scanned field. -/
theorem mkAnswers_length (qid : Nat) (base : Nat)
    (l : List (String × Bool)) : (mkAnswers qid base l).length = l.length := by
  induction l generalizing base with
  | nil => rfl
  | cons hd tl ih =>
    obtain ⟨t, c⟩ := hd
    simp [mkAnswers, ih]

/-- `mkAnswers` preserves the count of correct-flagged fields. -/
theorem mkAnswers_filter_correct (qid : Nat) (base : Nat)
    (l : List (String × Bool)) :
    ((mkAnswers qid base l).filter (fun a => a.correct)).length =
      (l.filter (fun tc => tc.2)).length := by
  induction l generalizing base with
  | nil => rfl
  | cons hd tl ih =>
    obtain ⟨t, c⟩ := hd
    cases c <;> simp [mkAnswers, List.filter_cons, ih]

/-- Every row `mkAnswers` creates is attached to the saved question. -/
theorem mkAnswers_questionId (qid : Nat) (base : Nat)
    (l : List (String × Bool)) :
    ∀ a ∈ mkAnswers qid base l, a.questionId = qid := by
  induction l generalizing base with
  | nil => intro a ha; simp [mkAnswers] at ha
  | cons hd tl ih =>
    obtain ⟨t, c⟩ := hd
    intro a ha
    simp only [mkAnswers, List.mem_cons] at ha
    rcases ha with rfl | ha
    · rfl
    · exact ih _ a ha

/-- C4: an authenticated, validating authoring POST whose form data holds
three `answer_text_<index>` fields, exactly one of which has its parallel
`is_correct_<index>` field equal to `"on"` (the two hypotheses, phrased
through the handler's own field scan `answerFields`), persists exactly one
question and exactly three answers attached to it, of which exactly one is
flagged correct; and an `is_correct` field counts as true only when its
value is exactly `"on"`. -/
theorem authoring_three_answers
    (formIsValid : List (String × String) → Bool)
    (post : List (String × String)) (s : Store)
    (hvalid : formIsValid post = true)
    (hk : (answerFields post).length = 3)
    (hc : ((answerFields post).filter (fun tc => tc.2)).length = 1) :
    ∃ newAnswers,
      add_question formIsValid true true post s =
        (.redirect "add_question",
         { s with
             questions := s.questions ++
               [questionFromForm post (freshQuestionId s)],
             answers := s.answers ++ newAnswers }) ∧
      newAnswers.length = 3 ∧
      (newAnswers.filter (fun a => a.correct)).length = 1 ∧
      (∀ a ∈ newAnswers, a.questionId = freshQuestionId s) ∧
      (∀ idx, isCorrectFor post idx = true ↔
        postGet post ("is_correct_" ++ idx) = some "on") := by
  refine ⟨mkAnswers (freshQuestionId s) (freshAnswerId s) (answerFields post),
    ?_, ?_, ?_, ?_, ?_⟩
  · simp [add_question, hvalid]
  · rw [mkAnswers_length]; exact hk
  · rw [mkAnswers_filter_correct]; exact hc
  · exact mkAnswers_questionId _ _ _
  · intro idx
    unfold isCorrectFor
    cases hg : postGet post ("is_correct_" ++ idx) with
    | none => simp
    | some v => simp [beq_iff_eq]

/-- Witness for C4: a concrete form with three answer fields and
`is_correct_2` set to `"on"` creates three answers, the second one
correct. -/
theorem authoring_three_answers_witness :
    (answerFields
      [("text", "Q"), ("answer_text_1", "A"), ("answer_text_2", "B"),
       ("answer_text_3", "C"), ("is_correct_2", "on")]).length = 3 ∧
    ((answerFields
      [("text", "Q"), ("answer_text_1", "A"), ("answer_text_2", "B"),
       ("answer_text_3", "C"), ("is_correct_2", "on")]).filter
        (fun tc => tc.2)).length = 1 ∧
    ∃ newAnswers,
      add_question (fun _ => true) true true
        [("text", "Q"), ("answer_text_1", "A"), ("answer_text_2", "B"),
         ("answer_text_3", "C"), ("is_correct_2", "on")]
        { questions := [], answers := [], userAnswers := [] } =
        (.redirect "add_question",
         { questions := [questionFromForm
             [("text", "Q"), ("answer_text_1", "A"), ("answer_text_2", "B"),
              ("answer_text_3", "C"), ("is_correct_2", "on")] 1],
           answers := newAnswers, userAnswers := [] }) ∧
      newAnswers.length = 3 ∧
      (newAnswers.filter (fun a => a.correct)).length = 1 ∧
      (∀ a ∈ newAnswers, a.questionId = 1) ∧
      (∀ idx, isCorrectFor
          [("text", "Q"), ("answer_text_1", "A"), ("answer_text_2", "B"),
           ("answer_text_3", "C"), ("is_correct_2", "on")] idx = true ↔
        postGet
          [("text", "Q"), ("answer_text_1", "A"), ("answer_text_2", "B"),
           ("answer_text_3", "C"), ("is_correct_2", "on")]
          ("is_correct_" ++ idx) = some "on") :=
  ⟨by decide, by decide,
   authoring_three_answers (fun _ => true)
     [("text", "Q"), ("answer_text_1", "A"), ("answer_text_2", "B"),
      ("answer_text_3", "C"), ("is_correct_2", "on")]
     { questions := [], answers := [], userAnswers := [] }
     rfl (by decide) (by decide)⟩

/-- C8 counterexample: with a failing validation outcome the handler does
not render the empty question form — it renders the form bound to the
submitted data, so the claim's description of the response is false at
this input (the store is indeed unchanged). -/
theorem invalid_form_renders_bound_counterexample :
    add_question (fun _ => false) true true [("text", "x")]
      { questions := [], answers := [], userAnswers := [] } ≠
      (.render "add_question.html" .empty,
       { questions := [], answers := [], userAnswers := [] }) := by
  decide

/-- C8 amended: on an authenticated authoring POST whose form data fails
validation, the handler silently falls through and re-renders the question
form bound to the submitted data, adds no error message of its own, and
persists nothing: the store is returned unchanged. -/
theorem invalid_form_renders_bound
    (formIsValid : List (String × String) → Bool)
    (post : List (String × String)) (s : Store)
    (h : formIsValid post = false) :
    add_question formIsValid true true post s =
      (.render "add_question.html" (.bound post), s) := by
  simp [add_question, h]

/-- Witness for the amended C8: a concrete failing submission re-renders
the bound form and leaves the empty store empty. -/
theorem invalid_form_renders_bound_witness :
    add_question (fun _ => false) true true [("text", "x")]
      { questions := [], answers := [], userAnswers := [] } =
      (.render "add_question.html" (.bound [("text", "x")]),
       { questions := [], answers := [], userAnswers := [] }) :=
  invalid_form_renders_bound (fun _ => false) [("text", "x")]
    { questions := [], answers := [], userAnswers := [] } rfl

end Quiz
